import Mathlib

/-
Verification of the extraction pipeline of the Dash_reporting repository.

The Python sources are shallowly embedded: strings are `List Char`/`String`,
Python numbers are `Rat`, `json.loads` is modelled by a total fuel-based
recursive-descent parser over the JSON grammar (exact rationals instead of
IEEE floats), and Python exceptions are modelled with `Except Unit`/`Option`.
Each definition names the Python function it embeds.
-/

namespace DashReporting

/-! ### Character and string helpers -/

/-- The opening curly bracket character. -/
def lbrace : Char := Char.ofNat 123

/-- The closing curly bracket character. -/
def rbrace : Char := Char.ofNat 125

/-- ASCII whitespace as matched by Python's `str.strip()` and the regex class
`\s` (space, tab, newline, carriage return, vertical tab, form feed).
The embedding covers the ASCII fragment; the pipeline's inputs are ASCII. -/
def isPyWs (c : Char) : Bool :=
  c = ' ' || c = '\t' || c = '\n' || c = '\r' || c = Char.ofNat 11 || c = Char.ofNat 12

/-- Whitespace skipped by Python's `json` module between tokens
(only space, tab, newline, carriage return). -/
def isJsonWs (c : Char) : Bool :=
  c = ' ' || c = '\t' || c = '\n' || c = '\r'

/-- Python `str.strip()` with no arguments: remove leading and trailing
whitespace. -/
def pyStrip (cs : List Char) : List Char :=
  ((cs.dropWhile (fun c => isPyWs c)).reverse.dropWhile (fun c => isPyWs c)).reverse

/-- Decimal digit test, the regex class `\d` (ASCII). -/
def isDigitCh (c : Char) : Bool :=
  48 ≤ c.toNat && c.toNat ≤ 57

/-- Numeric value of a decimal digit character. -/
def digitVal (c : Char) : Nat := c.toNat - 48

/-- Value of a list of decimal digit characters, most significant first. -/
def digitsVal (ds : List Char) : Nat :=
  ds.foldl (fun acc c => acc * 10 + digitVal c) 0

/-- Python's `sub in s` substring test, on character lists. -/
def containsSub (cs sub : List Char) : Bool :=
  sub.isPrefixOf cs ||
    match cs with
    | [] => false
    | _ :: rest => containsSub rest sub

/-- Index of the first occurrence of `c` (Python `str.find`, `none` for -1). -/
def findChar (cs : List Char) (c : Char) : Option Nat :=
  match cs with
  | [] => none
  | x :: rest =>
    if x = c then some 0
    else match findChar rest c with
      | some i => some (i + 1)
      | none => none

/-- Index of the last occurrence of `c` (Python `str.rfind`, `none` for -1). -/
def rfindChar (cs : List Char) (c : Char) : Option Nat :=
  match findChar cs.reverse c with
  | some i => some (cs.length - 1 - i)
  | none => none

/-! ### JSON values

Python's `json.loads` produces `dict`/`list`/`str`/`int`/`float`/`bool`/`None`;
by default it also accepts the non-standard constants `NaN`, `Inf` spelled
`Infinity` and `-Infinity`.  Objects are association lists in insertion order
(Python dicts keep the first occurrence's position and the last value). -/

inductive Json where
  | null
  | bool (b : Bool)
  | num (mantissa : Int) (exp10 : Int)
  | str (s : String)
  | arr (elems : List Json)
  | obj (members : List (String × Json))
  | nan
  | infinity (neg : Bool)

/-- The exact rational value of a parsed JSON number (`mantissa × 10 ^ exp10`);
Python would hold an `int` or an IEEE double, whose rounding plays no role in
the verified claims. -/
def numVal (mantissa exp10 : Int) : Rat := (mantissa : Rat) * (10 : Rat) ^ exp10

/-- Whether a value is a Python `dict`. -/
def Json.isObj : Json → Bool
  | .obj _ => true
  | _ => false

/-- Lookup in an association list built by the parser (keys are unique there,
so first match equals Python's dict lookup); `none` models a missing key. -/
def dictGet : List (String × Json) → String → Option Json
  | [], _ => none
  | (k, v) :: rest, key => if k = key then some v else dictGet rest key

/-- Python `d[key] = v`: update in place if the key exists (keeping its
position), otherwise append. -/
def dictSet : List (String × Json) → String → Json → List (String × Json)
  | [], key, v => [(key, v)]
  | (k, w) :: rest, key, v =>
    if k = key then (k, v) :: rest else (k, w) :: dictSet rest key v

/-- Python truthiness of a parsed JSON value (`bool(x)`). -/
def pyTruthy : Json → Bool
  | .null => false
  | .bool b => b
  | .num mantissa _ => mantissa ≠ 0
  | .str s => s ≠ ""
  | .arr xs => !xs.isEmpty
  | .obj kvs => !kvs.isEmpty
  | .nan => true
  | .infinity _ => true

/-! ### The `json.loads` model

A total recursive-descent parser for the grammar accepted by Python's
`json.loads` (strict mode): the RFC 8259 grammar plus the constants
`NaN`/`Infinity`/`-Infinity`.  Recursion is on a fuel counter that the
top-level entry point sets larger than the input length, which every
recursive call strictly consumes. Error values stand for the distinct
`json.JSONDecodeError` messages. -/

/-- Hexadecimal digit value, for `\uXXXX` escapes. -/
def hexDigitVal (c : Char) : Option Nat :=
  if 48 ≤ c.toNat ∧ c.toNat ≤ 57 then some (c.toNat - 48)
  else if 97 ≤ c.toNat ∧ c.toNat ≤ 102 then some (c.toNat - 87)
  else if 65 ≤ c.toNat ∧ c.toNat ≤ 70 then some (c.toNat - 55)
  else none

/-- Decode one backslash escape inside a JSON string (the backslash is already
consumed). `Char.ofNat` maps the (claim-irrelevant) lone-surrogate case of
`\uXXXX` to `'\0'` where Python would build a surrogate code unit. -/
def parseEscapeChar : List Char → Except String (Char × List Char)
  | [] => .error "Unterminated string starting at"
  | e :: rest =>
    if e = '"' then .ok ('"', rest)
    else if e = '\\' then .ok ('\\', rest)
    else if e = '/' then .ok ('/', rest)
    else if e = 'b' then .ok (Char.ofNat 8, rest)
    else if e = 'f' then .ok (Char.ofNat 12, rest)
    else if e = 'n' then .ok ('\n', rest)
    else if e = 'r' then .ok ('\r', rest)
    else if e = 't' then .ok ('\t', rest)
    else if e = 'u' then
      match rest with
      | h1 :: h2 :: h3 :: h4 :: rest2 =>
        match hexDigitVal h1, hexDigitVal h2, hexDigitVal h3, hexDigitVal h4 with
        | some a, some b, some c, some d =>
          .ok (Char.ofNat (((a * 16 + b) * 16 + c) * 16 + d), rest2)
        | _, _, _, _ => .error "Invalid \\uXXXX escape"
      | _ => .error "Invalid \\uXXXX escape"
    else .error "Invalid \\escape"

/-- Parse the body of a JSON string after the opening quote: content up to the
closing quote, rejecting raw control characters (strict mode). -/
def parseJStringBody : Nat → List Char → Except String (List Char × List Char)
  | 0, _ => .error "Out of fuel"
  | _ + 1, [] => .error "Unterminated string starting at"
  | fuel + 1, c :: rest =>
    if c = '"' then .ok ([], rest)
    else if c = '\\' then
      match parseEscapeChar rest with
      | .ok (ch, rest2) =>
        match parseJStringBody fuel rest2 with
        | .ok (content, rest3) => .ok (ch :: content, rest3)
        | .error err => .error err
      | .error err => .error err
    else if c.toNat < 32 then .error "Invalid control character"
    else
      match parseJStringBody fuel rest with
      | .ok (content, rest3) => .ok (c :: content, rest3)
      | .error err => .error err

/-- The integer part of a JSON number: `0` or a nonzero digit followed by
digits (no leading zeros). -/
def parseIntPart : List Char → Option (List Char × List Char)
  | [] => none
  | c :: rest =>
    if c = '0' then some ([c], rest)
    else if isDigitCh c then
      let (ds, rest2) := rest.span (fun d => isDigitCh d)
      some (c :: ds, rest2)
    else none

/-- The fractional part `.digits`, committed only when complete (otherwise the
number regex match simply ends before the dot). -/
def parseFracPart (cs : List Char) : Option (List Char × List Char) :=
  match cs with
  | c :: rest =>
    if c = '.' then
      match rest.span (fun d => isDigitCh d) with
      | ([], _) => none
      | (ds, rest2) => some (ds, rest2)
    else none
  | [] => none

/-- The exponent part `[eE][+-]?digits`, committed only when complete. -/
def parseExpPart (cs : List Char) : Option (Bool × List Char × List Char) :=
  match cs with
  | c :: rest =>
    if c = 'e' ∨ c = 'E' then
      let (sgn, rest1) :=
        match rest with
        | s :: rest1 =>
          if s = '-' then (true, rest1)
          else if s = '+' then (false, rest1)
          else (false, rest)
        | [] => (false, rest)
      match rest1.span (fun d => isDigitCh d) with
      | ([], _) => none
      | (ds, rest2) => some (sgn, ds, rest2)
    else none
  | [] => none

/-- A JSON number, per the regex `(-?(?:0|[1-9]\d*))(\.\d+)?([eE][-+]?\d+)?`
used by Python's scanner, as an exact decimal (mantissa, power of ten). -/
def parseNumberTok (cs : List Char) : Option ((Int × Int) × List Char) :=
  let (neg, cs1) :=
    match cs with
    | c :: rest => if c = '-' then (true, rest) else (false, cs)
    | [] => (false, cs)
  match parseIntPart cs1 with
  | none => none
  | some (ids, cs2) =>
    let (fds, cs3) :=
      match parseFracPart cs2 with
      | some (ds, r) => (ds, r)
      | none => ([], cs2)
    let (eneg, eds, cs4) :=
      match parseExpPart cs3 with
      | some (b, ds, r) => (b, ds, r)
      | none => (false, [], cs3)
    let mant : Nat := digitsVal (ids ++ fds)
    let mantI : Int := if neg then -(mant : Int) else (mant : Int)
    let e10 : Int :=
      (if eneg then -(digitsVal eds : Int) else (digitsVal eds : Int)) - (fds.length : Int)
    some ((mantI, e10), cs4)

/-- Drop a literal prefix, or fail. -/
def dropLit (lit : List Char) (cs : List Char) : Option (List Char) :=
  if lit.isPrefixOf cs then some (cs.drop lit.length) else none

/-- The parser's current task: a whole value, the members of an object
(`first` marks the position right after the opening brace, where `\x7d`
may close an empty object, and is false right after a comma, where a
property name is mandatory), or the elements of an array. -/
inductive PTask where
  | value
  | objBody (first : Bool) (acc : List (String × Json))
  | arrBody (first : Bool) (acc : List Json)

/-- One step of Python's `_json` scanner, structurally recursive on fuel.
For `PTask.value` the branch order is the scanner's: string, object, array,
`null`, `true`, `false`, number, then the constants `NaN`, `Infinity`,
`-Infinity`. -/
def parseJ : Nat → PTask → List Char → Except String (Json × List Char)
  | 0, _, _ => .error "Out of fuel"
  | fuel + 1, .value, cs =>
    match cs with
    | [] => .error "Expecting value"
    | c :: rest =>
      if c = '"' then
        match parseJStringBody (fuel + 1) rest with
        | .ok (content, rest2) => .ok (.str (String.mk content), rest2)
        | .error err => .error err
      else if c = lbrace then
        parseJ fuel (.objBody true []) (rest.dropWhile (fun w => isJsonWs w))
      else if c = '[' then
        parseJ fuel (.arrBody true []) (rest.dropWhile (fun w => isJsonWs w))
      else
        match dropLit ['n', 'u', 'l', 'l'] cs with
        | some r => .ok (.null, r)
        | none =>
        match dropLit ['t', 'r', 'u', 'e'] cs with
        | some r => .ok (.bool true, r)
        | none =>
        match dropLit ['f', 'a', 'l', 's', 'e'] cs with
        | some r => .ok (.bool false, r)
        | none =>
        match parseNumberTok cs with
        | some ((m, e), r) => .ok (.num m e, r)
        | none =>
        match dropLit ['N', 'a', 'N'] cs with
        | some r => .ok (.nan, r)
        | none =>
        match dropLit ['I', 'n', 'f', 'i', 'n', 'i', 't', 'y'] cs with
        | some r => .ok (.infinity false, r)
        | none =>
        match dropLit ['-', 'I', 'n', 'f', 'i', 'n', 'i', 't', 'y'] cs with
        | some r => .ok (.infinity true, r)
        | none => .error "Expecting value"
  | fuel + 1, .objBody first acc, cs =>
    match cs with
    | [] => .error "Expecting property name enclosed in double quotes"
    | c :: rest =>
      if c = rbrace ∧ first then .ok (.obj [], rest)
      else if c = '"' then
        match parseJStringBody (fuel + 1) rest with
        | .error err => .error err
        | .ok (key, rest2) =>
          match (rest2.dropWhile (fun w => isJsonWs w)) with
          | ':' :: rest3 =>
            match parseJ fuel .value (rest3.dropWhile (fun w => isJsonWs w)) with
            | .error err => .error err
            | .ok (v, rest4) =>
              let acc2 := dictSet acc (String.mk key) v
              match (rest4.dropWhile (fun w => isJsonWs w)) with
              | [] => .error "Expecting comma delimiter"
              | d :: rest5 =>
                if d = rbrace then .ok (.obj acc2, rest5)
                else if d = ',' then
                  parseJ fuel (.objBody false acc2) (rest5.dropWhile (fun w => isJsonWs w))
                else .error "Expecting comma delimiter"
          | _ => .error "Expecting colon delimiter"
      else .error "Expecting property name enclosed in double quotes"
  | fuel + 1, .arrBody first acc, cs =>
    match cs with
    | [] => .error "Expecting value"
    | c :: _ =>
      if c = ']' ∧ first then .ok (.arr [], cs.tail)
      else
        match parseJ fuel .value cs with
        | .error err => .error err
        | .ok (v, rest2) =>
          let acc2 := acc ++ [v]
          match (rest2.dropWhile (fun w => isJsonWs w)) with
          | [] => .error "Expecting comma delimiter"
          | d :: rest3 =>
            if d = ']' then .ok (.arr acc2, rest3)
            else if d = ',' then
              parseJ fuel (.arrBody false acc2) (rest3.dropWhile (fun w => isJsonWs w))
            else .error "Expecting comma delimiter"

/-- Python `json.loads`: skip surrounding whitespace, parse one value, and
reject trailing data. -/
def json_loads (s : String) : Except String Json :=
  let cs := s.data.dropWhile (fun w => isJsonWs w)
  match parseJ (s.data.length + 1) .value cs with
  | .ok (j, rest) =>
    if (rest.dropWhile (fun w => isJsonWs w)).isEmpty then .ok j
    else .error "Extra data"
  | .error err => .error err

/-! ### Response cleaning (shared by both parse paths)

`financial_tsx_generator.py`: both `generate_financial_slides` (lines
1022-1034) and `_parse_json_response` (lines 817-829) run the identical
cleaning block: `strip()`, drop a leading fence marker and a trailing fence
marker, `strip()` again, then slice from the first opening brace to one past
the last closing brace when both exist in that order. -/

/-- Whether `pre` is a prefix (Python `str.startswith`). -/
def startsWithChars (cs pre : List Char) : Bool := pre.isPrefixOf cs

/-- The cleaning block shared by the single-pass parse stage and the
category-partitioned `_parse_json_response`. -/
def clean_response (response : String) : String :=
  let r := pyStrip response.data
  let r := if startsWithChars r ("```json".data) then r.drop 7 else r
  let r := if r.reverse.take 3 = ("```".data).reverse then r.take (r.length - 3) else r
  let r := pyStrip r
  let json_start := findChar r lbrace
  let json_end :=
    match rfindChar r rbrace with
    | some i => i + 1
    | none => 0
  match json_start with
  | some js => if js < json_end then String.mk ((r.drop js).take (json_end - js)) else String.mk r
  | none => String.mk r

/-! ### The three JSON repair heuristics

`generate_financial_slides`, lines 1044-1054 (and identically in the async
variant): three `re.sub` rewrites applied in sequence to the sliced response
after a strict parse failure. Each is embedded by its exact effect on the
subject string, matching `re.sub`'s left-to-right non-overlapping semantics. -/

/-- Whether the list starts with optional `\s*` whitespace followed by a
closing brace or bracket (the lookahead of `re.sub(r',(\s*[}\]])', r'\1', _)`). -/
def wsThenCloser : List Char → Bool
  | [] => false
  | c :: rest =>
    if c = rbrace ∨ c = ']' then true
    else if isPyWs c then wsThenCloser rest
    else false

/-- Heuristic (a), `re.sub(r',(\s*[}\]])', r'\1', s)`: delete every comma that
is followed by optional whitespace and then `\x7d` or `]`.  Deleting the comma
and continuing is equivalent to the regex's replace-and-resume, because the
kept group contains no comma for a later match to overlap. -/
def fix_trailing_commas : List Char → List Char
  | [] => []
  | c :: rest =>
    if c = ',' ∧ wsThenCloser rest then fix_trailing_commas rest
    else c :: fix_trailing_commas rest

/-- Skip `\s*` whitespace and then consume an opening brace, returning the
remainder (the tail matched by `re.sub(r'}\s*{', '},{', _)` after its `\x7d`). -/
def wsThenOpener : List Char → Option (List Char)
  | [] => none
  | c :: rest =>
    if c = lbrace then some rest
    else if isPyWs c then wsThenOpener rest
    else none

/-- Heuristic (b), `re.sub(r'}\s*{', '},{', s)`, structurally recursive on a
fuel counter that bounds the input length: replace every closing brace
followed by optional whitespace and an opening brace with the three characters
closing brace, comma, opening brace (the whitespace is dropped), then resume
after the consumed opening brace. -/
def fixMissingCommasFuel : Nat → List Char → List Char
  | 0, cs => cs
  | _ + 1, [] => []
  | fuel + 1, c :: rest =>
    if c = rbrace then
      match wsThenOpener rest with
      | some rest2 => rbrace :: ',' :: lbrace :: fixMissingCommasFuel fuel rest2
      | none => c :: fixMissingCommasFuel fuel rest
    else c :: fixMissingCommasFuel fuel rest

/-- Heuristic (b) on a whole string (every step of `fixMissingCommasFuel`
consumes at least one character, so the input length is enough fuel). -/
def fix_missing_commas (cs : List Char) : List Char :=
  fixMissingCommasFuel cs.length cs

/-- Whether some later character is a comma, closing brace or closing bracket:
the lookahead `(?=[^,}\]]*[,}\]])` succeeds exactly when the first such
delimiter after the current position exists. -/
def hasDelimAhead : List Char → Bool
  | [] => false
  | c :: rest =>
    if c = ',' ∨ c = rbrace ∨ c = ']' then true else hasDelimAhead rest

/-- Heuristic (c), `re.sub(r'(?<!\\)"(?=[^,}\]]*[,}\]])', r'\\"', s)`: escape
every double quote whose preceding character (in the original string, per
`re.sub`'s semantics) is not a backslash and that is followed, at any distance,
by a comma, closing brace or closing bracket. `prev` carries the original
preceding character. -/
def fix_quotes_from (prev : Option Char) : List Char → List Char
  | [] => []
  | c :: rest =>
    if c = '"' ∧ prev ≠ some '\\' ∧ hasDelimAhead rest then
      '\\' :: '"' :: fix_quotes_from (some c) rest
    else c :: fix_quotes_from (some c) rest

/-- Heuristic (c) applied to a whole string (no character precedes position 0,
so the negative lookbehind holds there). -/
def fix_unescaped_quotes (cs : List Char) : List Char :=
  fix_quotes_from none cs

/-- The complete repair chain: the three heuristics in their source order,
each applied to the previous result. -/
def repair_json (cs : List Char) : List Char :=
  fix_unescaped_quotes (fix_missing_commas (fix_trailing_commas cs))

/-- The single-pass parse stage of `generate_financial_slides` (lines
1036-1063): strict parse; on failure repair with all three heuristics, then
re-attempt once; if that also fails, re-raise the original parser error. -/
def parse_with_repair (s : String) : Except String Json :=
  match json_loads s with
  | .ok j => .ok j
  | .error first_error =>
    match json_loads (String.mk (repair_json s.data)) with
    | .ok j => .ok j
    | .error _ => .error first_error

/-- Model of `_parse_json_response` (lines 814-838): the category-partitioned per-call
parser. Same cleaning block, then a strict parse with NO repair heuristics:
`json.JSONDecodeError` is caught and mapped to `\x7b"metrics": []\x7d`.  On
parse success the debug print runs `len(parsed_data.get('metrics', []))`
before the dict is returned, and that raises out of this helper — modelled as
`.error ()` — when the parsed value is not a dict (`AttributeError` from
`.get`) or when its `metrics` value has no `len()` (`TypeError` for `null`,
numbers, booleans and the float constants); `len()` succeeds on the default
`[]`, lists, strings and dicts, and the parsed dict is returned unchanged.
The callers catch the raise and fall back to `\x7b"metrics": []\x7d`
themselves. -/
def parse_json_response (response : String) : Except Unit Json :=
  match json_loads (clean_response response) with
  | .ok j =>
    match j with
    | .obj kvs =>
      match dictGet kvs "metrics" with
      | none => .ok (.obj kvs)
      | some (.arr _) => .ok (.obj kvs)
      | some (.str _) => .ok (.obj kvs)
      | some (.obj _) => .ok (.obj kvs)
      | some _ => .error ()
    | _ => .error ()
  | .error _ => .ok (.obj [("metrics", .arr [])])

/-! ### The date normalizer

`FinancialTSXGenerator._parse_date` (lines 26-44): try the `strptime` formats
`"%b %Y"`, `"%B %Y"`, `"%m/%Y"`, `"%Y-%m"` in that order; the first match
wins; any label matching none maps to the sentinel `datetime(9999, 12, 31)`.
`strptime` matches month names case-insensitively (the whole input is lowered
here, which only affects letters), `%m` matches `1[0-2]|0[1-9]|[1-9]`, `%Y`
matches exactly four digits, a literal space in the format matches a
nonempty whitespace run, and the whole string must be consumed.  `datetime`
requires `year ≥ 1`, so a year of `0000` raises `ValueError` and falls
through to the next format. A parsed date has day 1; keys encode
`year * 10000 + month * 100 + day`. -/

/-- ASCII lowering, as Python's `str.lower()` acts on the pipeline's ASCII
period labels. -/
def pyLowerChar (c : Char) : Char := c.toLower

/-- Month-name tables of the C locale used by `strptime` (abbreviated for
`%b`, full for `%B`), lowercase. -/
def monthAbbrevs : List (List Char × Nat) :=
  [("jan".data, 1), ("feb".data, 2), ("mar".data, 3), ("apr".data, 4),
   ("may".data, 5), ("jun".data, 6), ("jul".data, 7), ("aug".data, 8),
   ("sep".data, 9), ("oct".data, 10), ("nov".data, 11), ("dec".data, 12)]

/-- Full month names for `%B`. -/
def monthFulls : List (List Char × Nat) :=
  [("january".data, 1), ("february".data, 2), ("march".data, 3), ("april".data, 4),
   ("may".data, 5), ("june".data, 6), ("july".data, 7), ("august".data, 8),
   ("september".data, 9), ("october".data, 10), ("november".data, 11), ("december".data, 12)]

/-- Match one name of the table as a prefix, returning its month number and
the remainder. -/
def matchMonthName : List (List Char × Nat) → List Char → Option (Nat × List Char)
  | [], _ => none
  | (name, m) :: tbl, cs =>
    if name.isPrefixOf cs then some (m, cs.drop name.length)
    else matchMonthName tbl cs

/-- A nonempty whitespace run (a literal blank in a `strptime` format). -/
def matchWsRun : List Char → Option (List Char)
  | [] => none
  | c :: rest => if isPyWs c then some (rest.dropWhile (fun w => isPyWs w)) else none

/-- Exactly four decimal digits (`%Y`), as a number. -/
def matchFourDigits : List Char → Option (Nat × List Char)
  | a :: b :: c :: d :: rest =>
    if isDigitCh a ∧ isDigitCh b ∧ isDigitCh c ∧ isDigitCh d then
      some (digitsVal [a, b, c, d], rest)
    else none
  | _ => none

/-- The two-digit alternatives of `%m` (`1[0-2]|0[1-9]`), with the remainder.
Both alternatives start with distinct characters, so their order is moot. -/
def matchMonthTwoDigits : List Char → Option (Nat × List Char)
  | a :: b :: rest =>
    if a = '1' ∧ 48 ≤ b.toNat ∧ b.toNat ≤ 50 then some (10 + (b.toNat - 48), rest)
    else if a = '0' ∧ 49 ≤ b.toNat ∧ b.toNat ≤ 57 then some (b.toNat - 48, rest)
    else none
  | _ => none

/-- The one-digit alternative of `%m` (`[1-9]`), with the remainder. -/
def matchMonthOneDigit : List Char → Option (Nat × List Char)
  | a :: rest =>
    if 49 ≤ a.toNat ∧ a.toNat ≤ 57 then some (a.toNat - 48, rest) else none
  | [] => none

/-- Format `"%b %Y"` / `"%B %Y"` over a lowered label: month name, blank run,
four-digit year, end of input; a zero year is rejected (`datetime` raises). -/
def parseMonthNameYear (tbl : List (List Char × Nat)) (cs : List Char) : Option (Nat × Nat) :=
  match matchMonthName tbl cs with
  | none => none
  | some (m, rest) =>
    match matchWsRun rest with
    | none => none
    | some rest2 =>
      match matchFourDigits rest2 with
      | some (y, []) => if y = 0 then none else some (y, m)
      | _ => none

/-- After the month of `"%m/%Y"`: slash, four-digit nonzero year, end. -/
def slashYearEnd : List Char → Option Nat
  | c :: rest =>
    if c = '/' then
      match matchFourDigits rest with
      | some (y, []) => if y = 0 then none else some y
      | _ => none
    else none
  | [] => none

/-- Format `"%m/%Y"`: numeric month, slash, four-digit year, end of input.
The regex engine backtracks from the two-digit month alternatives to the
one-digit one when the continuation fails. -/
def parseMonthSlashYear (cs : List Char) : Option (Nat × Nat) :=
  match matchMonthTwoDigits cs with
  | some (m, rest) =>
    match slashYearEnd rest with
    | some y => some (y, m)
    | none =>
      match matchMonthOneDigit cs with
      | some (m1, rest1) =>
        match slashYearEnd rest1 with
        | some y => some (y, m1)
        | none => none
      | none => none
  | none =>
    match matchMonthOneDigit cs with
    | some (m1, rest1) =>
      match slashYearEnd rest1 with
      | some y => some (y, m1)
      | none => none
    | none => none

/-- Format `"%Y-%m"`: four-digit nonzero year, dash, numeric month, end of
input (with the same backtracking between the `%m` alternatives). -/
def parseYearDashMonth (cs : List Char) : Option (Nat × Nat) :=
  match matchFourDigits cs with
  | some (y, '-' :: rest) =>
    if y = 0 then none
    else
      match matchMonthTwoDigits rest with
      | some (m, []) => some (y, m)
      | _ =>
        match matchMonthOneDigit rest with
        | some (m1, []) => some (y, m1)
        | _ => none
  | _ => none

/-- Encode `datetime(y, m, d)` as a sortable number. -/
def dateKey (y m d : Nat) : Nat := y * 10000 + m * 100 + d

/-- The sentinel `datetime(9999, 12, 31)` for unparseable labels. -/
def sentinelKey : Nat := dateKey 9999 12 31

/-- Model of `_parse_date`, as a sort key: the four formats in source order, first
match wins, sentinel otherwise. -/
def parse_date_key (s : String) : Nat :=
  let low := s.data.map pyLowerChar
  match parseMonthNameYear monthAbbrevs low with
  | some (y, m) => dateKey y m 1
  | none =>
  match parseMonthNameYear monthFulls low with
  | some (y, m) => dateKey y m 1
  | none =>
  match parseMonthSlashYear low with
  | some (y, m) => dateKey y m 1
  | none =>
  match parseYearDashMonth low with
  | some (y, m) => dateKey y m 1
  | none => sentinelKey

/-! ### The chronological sort

`_sort_chart_data_chronologically` (lines 46-57): `sorted(chart_data, key=
lambda x: self._parse_date(x.get('name', '')))`. Python's `sorted` is a
stable ascending sort, embedded as `List.mergeSort` (also stable).  The
`sorted` call sits in a `try`: the key lambda raises `AttributeError` when an
entry is not a dict (`x.get`), in which case the original list is returned
unchanged; with dict entries the key is total (`_parse_date` catches every
exception, mapping non-string names and unparseable labels to the sentinel). -/

/-- The sort key of one chart entry. Non-dict entries never reach the key
function (the guard in `sort_chart_data_chronologically` returns the list
unchanged); the value for them is irrelevant and fixed at the sentinel. -/
def chart_entry_key : Json → Nat
  | .obj kvs =>
    match dictGet kvs "name" with
    | some (.str s) => parse_date_key s
    | some _ => sentinelKey
    | none => parse_date_key ""
  | _ => sentinelKey

/-- Key comparison handed to the stable sort. -/
def chartKeyLe (a b : Json) : Bool := chart_entry_key a ≤ chart_entry_key b

/-- Model of `_sort_chart_data_chronologically`: empty input returned as is; all-dict
input stably sorted by the date key; otherwise (key lambda raises inside
`sorted`) the original list is returned by the `except` arm. -/
def sort_chart_data_chronologically (chart_data : List Json) : List Json :=
  if chart_data.isEmpty then chart_data
  else if chart_data.all (fun x => x.isObj) then chart_data.mergeSort chartKeyLe
  else chart_data

/-! ### The single-pass pipeline

`generate_financial_slides` (lines 937-1095): one completion call, the
cleaning block, the strict-parse-then-repair stage, a post-parse loop sorting
each metric's `chart_data`, and two `except` arms that both return
`_create_default_structure`. The completion call's outcome is passed in as
an `Except` value (`error` = the call raised); `today` stands for
`datetime.now().strftime("%B %Y")`. -/

/-- Model of `_create_default_structure` (lines 1097-1105). -/
def create_default_structure (today : String) : Json :=
  .obj [("title", .str "Financial Analysis Report"),
        ("subtitle", .str "Comprehensive Financial Overview"),
        ("date", .str today),
        ("metrics", .arr []),
        ("comparisons", .null)]

/-- The body of the post-parse loop for one metric (lines 1066-1073):
`if 'chart_data' in metric and metric['chart_data']:` sort it in place.
`.error ()` models a raised exception: `metric.get` on a non-dict metric
(`AttributeError`), or `.copy()` on a truthy non-list, non-dict `chart_data`
value. A dict-valued `chart_data` passes through unchanged (the key lambda
raises inside `sorted`, which `_sort_chart_data_chronologically` catches,
returning its argument). -/
def sort_metric_chart_data : Json → Except Unit Json
  | .obj kvs =>
    match dictGet kvs "chart_data" with
    | some (.arr cd) =>
      if cd.isEmpty then .ok (.obj kvs)
      else .ok (.obj (dictSet kvs "chart_data" (.arr (sort_chart_data_chronologically cd))))
    | some (.obj _) => .ok (.obj kvs)
    | some v => if pyTruthy v then .error () else .ok (.obj kvs)
    | none => .ok (.obj kvs)
  | _ => .error ()

/-- The post-parse stage (lines 1065-1086): iterate
`parsed_data.get('metrics', [])` sorting each metric's chart data.
`.error ()` models exceptions of the loop or of the debug prints that follow
it (`parsed_data.get` on a non-dict top-level value, iteration over a
non-iterable `metrics` value, `metric.get` on non-dict elements); the
follow-up debug loop's own formatting of malformed chart points is not
modelled further, as no claim depends on the success shape there. -/
def sort_all_metrics : Json → Except Unit Json
  | .obj kvs =>
    match dictGet kvs "metrics" with
    | none => .ok (.obj kvs)
    | some (.arr ms) =>
      match ms.mapM sort_metric_chart_data with
      | .ok ms2 => .ok (.obj (dictSet kvs "metrics" (.arr ms2)))
      | .error e => .error e
    | some (.str s) => if s = "" then .ok (.obj kvs) else .error ()
    | some (.obj kvs2) => if kvs2.isEmpty then .ok (.obj kvs) else .error ()
    | some _ => .error ()
  | _ => .error ()

/-- Model of `generate_financial_slides`: the completion call's outcome runs through
clean + parse-with-repair + post-parse sort; every failure lands in an
`except` arm returning the default structure. -/
def generate_financial_slides (call_outcome : Except Unit String) (today : String) : Json :=
  match call_outcome with
  | .error _ => create_default_structure today
  | .ok response =>
    match parse_with_repair (clean_response response) with
    | .error _ => create_default_structure today
    | .ok parsed =>
      match sort_all_metrics parsed with
      | .ok j => j
      | .error _ => create_default_structure today

/-! ### The concurrent extraction coordinator

`process_financial_data_with_true_concurrency` (lines 840-895) gathers the
three category extractions with `return_exceptions=True` — so each category
result reaching `_merge_concurrent_extractions` (lines 897-935) is either an
`Exception` instance (modelled `.error ()`) or a parsed dict. The merge
replaces exceptions with `\x7b"metrics": []\x7d`, then runs
`all_metrics.extend(result.get("metrics", []))` three times in the fixed
order revenue, profitability, operational. -/

/-- What `all_metrics.extend(result.get("metrics", []))` contributes for one
category result: an exception contributes `[]`; a dict contributes its
`metrics` list (default `[]`), the characters of a string `metrics` value, or
the keys of a dict `metrics` value (`list.extend` iterates them);
`none` models the `TypeError` of extending with a non-iterable and the
`AttributeError` of `.get` on a non-dict — neither is reachable from the
category extractors, which catch their own failures. -/
def metrics_contribution : Except Unit Json → Option (List Json)
  | .error _ => some []
  | .ok (.obj kvs) =>
    match dictGet kvs "metrics" with
    | none => some []
    | some (.arr xs) => some xs
    | some (.str s) => some (s.data.map (fun c => Json.str (String.mk [c])))
    | some (.obj kvs2) => some (kvs2.map (fun kv => Json.str kv.1))
    | some _ => none
  | .ok _ => none

/-- Model of `_merge_concurrent_extractions`: exceptions become empty contributions,
the three metric lists are concatenated in the fixed order, and the result is
wrapped with the title, the counting subtitle and the date (`today` stands
for `datetime.now().strftime("%Y-%m-%d")`). -/
def merge_concurrent_extractions
    (revenue_result profitability_result operational_result : Except Unit Json)
    (today : String) : Option Json :=
  match metrics_contribution revenue_result,
        metrics_contribution profitability_result,
        metrics_contribution operational_result with
  | some mr, some mp, some mo =>
    let all_metrics := mr ++ mp ++ mo
    some (.obj [("title", .str "Financial Analysis Report"),
                ("subtitle", .str ("Concurrent Analysis - " ++ toString all_metrics.length ++ " Metrics")),
                ("date", .str today),
                ("metrics", .arr all_metrics)])
  | _, _, _ => none

/-! ### The preprocessor

`preprocess_with_deepseek` (lines 132-203, and its async twin, lines 59-130):
the completion call runs inside a `try`; its response is returned as the
preprocessed text, and `except Exception` returns the raw input unchanged. -/

/-- Model of `preprocess_with_deepseek`, over the completion call's outcome. -/
def preprocess_with_deepseek (raw_financial_text : String)
    (call_outcome : Except Unit String) : String :=
  match call_outcome with
  | .ok response => response
  | .error _ => raw_financial_text

/-! ### The comparison-kind classifier

`detect_comparison_type` (lines 1230-1278, nested in
`_generate_statistic_slide`). The year extraction there is
`re.search(r'20\d\x7b\x7b2\x7d\x7d', label)`: in a plain (non-f-string)
regex the doubled braces are NOT an escape — the pattern parses as the
literals `2`, `0`, the class `\d`, a literal `\x7b` (the inner `\x7b2\x7d`
quantifier repeats it twice), and a literal `\x7d`.  It therefore matches
only the six characters `2`, `0`, digit, `\x7b`, `\x7b`, `\x7d` — never a
plain four-digit year.  When it does match both labels, `int()` on the
matched text (which always contains braces) raises `ValueError`, modelled as
`none`. -/

/-- Whether the year-token regex `20\d\x7b\x7b2\x7d\x7d` matches at the very
start: the six-character pattern `2`, `0`, digit, `\x7b`, `\x7b`, `\x7d`. -/
def yearTokAt : List Char → Bool
  | a :: b :: d :: b1 :: b2 :: b3 :: _ =>
    a = '2' ∧ b = '0' ∧ isDigitCh d ∧ b1 = lbrace ∧ b2 = lbrace ∧ b3 = rbrace
  | _ => false

/-- Whether the year-token regex matches anywhere (`re.search` tries every
start position). -/
def has_year_token : List Char → Bool
  | [] => false
  | c :: rest => yearTokAt (c :: rest) || has_year_token rest

/-- The 24-entry month substring table of the source (`'may'` appears twice,
as in the Python list). -/
def detectMonths : List String :=
  ["jan", "feb", "mar", "apr", "may", "jun",
   "jul", "aug", "sep", "oct", "nov", "dec",
   "january", "february", "march", "april", "may", "june",
   "july", "august", "september", "october", "november", "december"]

/-- The quarter substring table of the source. -/
def detectQuarters : List String := ["q1", "q2", "q3", "q4", "quarter"]

/-- Model of `detect_comparison_type`: empty labels short-circuit; then, on the
lowercased labels, the dead year-token check (raising `ValueError`, `none`,
when both labels contain the token), the quarter-substring check, the
month-substring check, and the generic fallback, in source order. -/
def detect_comparison_type (prev_label latest_label : String) : Option String :=
  if prev_label = "" ∨ latest_label = "" then some "vs Previous"
  else
    let prev := prev_label.data.map pyLowerChar
    let latest := latest_label.data.map pyLowerChar
    let prev_year := has_year_token prev
    let latest_year := has_year_token latest
    let prev_has_month := detectMonths.any (fun m => containsSub prev m.data)
    let latest_has_month := detectMonths.any (fun m => containsSub latest m.data)
    let prev_has_quarter := detectQuarters.any (fun q => containsSub prev q.data)
    let latest_has_quarter := detectQuarters.any (fun q => containsSub latest q.data)
    if prev_year ∧ latest_year then
      none
    else if prev_has_quarter ∧ latest_has_quarter then
      some ("QoQ (" ++ prev_label ++ " → " ++ latest_label ++ ")")
    else if prev_has_month ∧ latest_has_month then
      some ("MoM (" ++ prev_label ++ " → " ++ latest_label ++ ")")
    else
      some ("vs Previous (" ++ prev_label ++ " → " ++ latest_label ++ ")")

/-! ### The dashboard percentage change

`generate_dashboard_html_with_real_data` in `generate_real_charts_pdf.py`,
lines 820-825: the percentage change between the two comparison periods.
Python floats are embedded as exact rationals; the guard is `> 0`, and the
`else` arm sets the change to `0` (which stays in the output lists). -/

/-- The percent-change computation of the dashboard metric loop. -/
def change_pct (period1_val period2_val : Rat) : Rat :=
  if period1_val > 0 then (period2_val - period1_val) / period1_val * 100 else 0

/-! ### The KPI strings of a statistic slide

`_generate_statistic_slide`, lines 1224-1286: the `kpis` object of a metric
(as returned by the model and parsed from its JSON) is unpacked with
`metric.get("kpis") or \x7b\x7d`, `(k or \x7b\x7d).get("vs_previous") or
None`; when `vs` is a dict whose `pct` is not `None`, the slide's
`kpiPrevPercent` is the f-string `f"\x7bsign\x7d\x7bvs.get('pct')\x7d%"`
with `sign = "+" if vs.get("pct", 0) >= 0 else ""`. -/

/-- Python `x or default` over an optional lookup result. -/
def pyOrDefault (v : Option Json) (d : Json) : Json :=
  match v with
  | some x => if pyTruthy x then x else d
  | none => d

/-- Python `x or None` over an optional lookup result. -/
def pyOrNone (v : Option Json) : Option Json :=
  match v with
  | some x => if pyTruthy x then some x else none
  | none => none

/-- The `vs_previous` value of a metric's kpis, per the source's `or`-chains:
`.error ()` models the `AttributeError` of `.get` on a truthy non-dict
`kpis` value. -/
def vs_previous_of (metric_kvs : List (String × Json)) : Except Unit (Option Json) :=
  let k := pyOrDefault (dictGet metric_kvs "kpis") (.obj [])
  let k2 := if pyTruthy k then k else .obj []
  match k2 with
  | .obj kkvs => .ok (pyOrNone (dictGet kkvs "vs_previous"))
  | _ => .error ()

/-- The pieces of `kpiPrevPercent` (lines 1280-1286): `.ok none` when the
guard `vs is not None and isinstance(vs, dict) and vs.get("pct") is not None`
fails and the field stays `""`; `.ok (some (sign, pct))` for the interpolated
sign and the verbatim `pct` value; `.error ()` when Python would raise (a
truthy non-dict `kpis` value, or a `pct` value that `>= 0` cannot compare). -/
def kpi_prev_percent (metric : Json) : Except Unit (Option (String × Json)) :=
  match metric with
  | .obj kvs =>
    match vs_previous_of kvs with
    | .error e => .error e
    | .ok none => .ok none
    | .ok (some v) =>
      match v with
      | .obj vkvs =>
        match dictGet vkvs "pct" with
        | none => .ok none
        | some .null => .ok none
        | some (.num m e) => .ok (some ((if 0 ≤ m then "+" else ""), .num m e))
        | some (.bool b) => .ok (some ("+", .bool b))
        | some .nan => .ok (some ("", .nan))
        | some (.infinity neg) => .ok (some ((if neg then "" else "+"), .infinity neg))
        | some _ => .error ()
      | _ => .ok none
  | _ => .error ()

/-- A sample metric of the shape produced by the extraction prompts, with the
Aug-to-Sep Income series fixed and the model-supplied `pct` a parameter. -/
def sampleMetric (pct : Json) : Json :=
  .obj [("name", .str "Income"),
        ("value", .str "$5,200"),
        ("label", .str "Latest Income (Sep 2024)"),
        ("kpis", .obj [("vs_previous", .obj [("pct", pct), ("from", .num 9384 0), ("to", .num 5200 0)]),
                       ("previous_label", .str "Aug 2024"),
                       ("latest_label", .str "Sep 2024")]),
        ("chart_data", .arr [.obj [("name", .str "Aug 2024"), ("series1", .num 9384 0)],
                             .obj [("name", .str "Sep 2024"), ("series1", .num 5200 0)]])]

/-! ## Theorems -/

/-- A match of the (mis-bracketed) year pattern at the start of a text puts an
opening brace among its first six characters. -/
theorem yearTokAt_mem_lbrace :
    ∀ cs : List Char, yearTokAt cs = true → lbrace ∈ cs := by
  intro cs h
  rcases cs with _ | ⟨a, _ | ⟨b, _ | ⟨d, _ | ⟨b1, _ | ⟨b2, _ | ⟨b3, tail⟩⟩⟩⟩⟩⟩ <;>
    simp [yearTokAt] at h
  obtain ⟨-, -, -, hb, -, -⟩ := h
  simp [hb]

/-- The search `has_year_token` can only fire on text containing an opening brace: every
match of the (mis-bracketed) year pattern contains the literal `\x7b`. -/
theorem has_year_token_mem_lbrace :
    ∀ cs : List Char, has_year_token cs = true → lbrace ∈ cs := by
  intro cs h
  induction cs with
  | nil => simp [has_year_token] at h
  | cons c rest ih =>
    rw [has_year_token] at h
    rcases Bool.or_eq_true_iff.mp h with h1 | h2
    · exact yearTokAt_mem_lbrace (c :: rest) h1
    · exact List.mem_cons_of_mem c (ih h2)

/-- C1. The comparison-kind classifier at the spec's four example label pairs,
plus the fact that makes the claim's YoY case unreachable: the year-token
regex `20\d\x7b\x7b2\x7d\x7d` (doubled braces in a non-f-string) only matches
text containing a literal opening brace, so on ordinary period labels both
year searches return `None`, the YoY branch is dead, and
`classify("Sep 2023", "Sep 2024")` falls through to MoM — where the claim
(and the intended pattern `20\d\x7b2\x7d`) says YoY. -/
theorem detect_comparison_type_eval :
    detect_comparison_type "Sep 2023" "Sep 2024" = some "MoM (Sep 2023 → Sep 2024)" ∧
    detect_comparison_type "Aug 2024" "Sep 2024" = some "MoM (Aug 2024 → Sep 2024)" ∧
    detect_comparison_type "Q1 2024" "Q2 2024" = some "QoQ (Q1 2024 → Q2 2024)" ∧
    detect_comparison_type "Period 1" "Period 2" = some "vs Previous (Period 1 → Period 2)" ∧
    (∀ cs : List Char, has_year_token cs = true → lbrace ∈ cs) := by
  exact ⟨by rfl, by rfl, by rfl, by rfl, has_year_token_mem_lbrace⟩

/-- Witness for `detect_comparison_type_eval`: the year-token pattern does
fire on the six-character text `203\x7b\x7b\x7d`, which indeed contains an
opening brace. -/
theorem detect_comparison_type_eval_witness :
    has_year_token ['2', '0', '3', lbrace, lbrace, rbrace] = true ∧
      lbrace ∈ ['2', '0', '3', lbrace, lbrace, rbrace] :=
  ⟨by rfl, detect_comparison_type_eval.2.2.2.2 ['2', '0', '3', lbrace, lbrace, rbrace] (by rfl)⟩

/-- C2. The coordinator's merge: for category results that are exceptions or
carry a metric list, the merged `metrics` is exactly the concatenation
revenue ++ profitability ++ operational (no deduplication), an exception (or
a raising category call, already folded to `.error` by `asyncio.gather`'s
`return_exceptions=True` or the extractor's own `except` arm) contributes the
empty list without touching the other two, and the merge returns a value
(`some _`) rather than propagating an exception. -/
theorem merge_concurrent_extractions_spec
    (r p o : Except Unit Json) (today : String) (mr mp mo : List Json)
    (hr : metrics_contribution r = some mr)
    (hp : metrics_contribution p = some mp)
    (ho : metrics_contribution o = some mo) :
    merge_concurrent_extractions r p o today =
      some (.obj [("title", .str "Financial Analysis Report"),
                  ("subtitle", .str ("Concurrent Analysis - " ++ toString (mr ++ mp ++ mo).length ++ " Metrics")),
                  ("date", .str today),
                  ("metrics", .arr (mr ++ mp ++ mo))]) ∧
    (∀ e : Unit, metrics_contribution (.error e) = some []) := by
  constructor
  · simp [merge_concurrent_extractions, hr, hp, ho]
  · intro e; rfl

/-- Witness for `merge_concurrent_extractions_spec`: a failing operational
category next to two successful ones — the merged list keeps all revenue and
profitability metrics, in order, with zero operational metrics. -/
theorem merge_concurrent_extractions_spec_witness :
    merge_concurrent_extractions
      (.ok (.obj [("metrics", .arr [.str "rev1", .str "rev2"])]))
      (.ok (.obj [("metrics", .arr [.str "prof1"])]))
      (.error ())
      "2024-01-01" =
      some (.obj [("title", .str "Financial Analysis Report"),
                  ("subtitle", .str "Concurrent Analysis - 3 Metrics"),
                  ("date", .str "2024-01-01"),
                  ("metrics", .arr [.str "rev1", .str "rev2", .str "prof1"])]) :=
  (merge_concurrent_extractions_spec
      (.ok (.obj [("metrics", .arr [.str "rev1", .str "rev2"])]))
      (.ok (.obj [("metrics", .arr [.str "prof1"])]))
      (.error ())
      "2024-01-01"
      [.str "rev1", .str "rev2"] [.str "prof1"] []
      (by rfl) (by rfl) (by rfl)).1

/-- C3 counterexample. The claim says the percent formula applies whenever
`from_value != 0` and that a zero `from_value` omits the delta entirely; the
code guards with `> 0` and otherwise emits a present `0`: at
`from = -1 ≠ 0, to = 1` the claim's formula gives `-200` but the code gives
`0`, and at `from = 0` the code emits `0` rather than omitting the entry. -/
theorem change_pct_counterexample :
    change_pct (-1) 1 = 0 ∧
    ((1 : Rat) - (-1)) / (-1) * 100 = -200 ∧
    (0 : Rat) ≠ -200 ∧
    change_pct 0 5 = 0 := by
  refine ⟨?_, by norm_num, by norm_num, ?_⟩ <;> simp [change_pct]

/-- C3 (amended). The percent change is `(to - from) / from * 100` only when
`from > 0`; for every `from ≤ 0` (zero included) the change is the present
value `0` — the division is never executed there, so no infinity, NaN or
crash can arise. -/
theorem change_pct_spec (period1_val period2_val : Rat) :
    (0 < period1_val →
      change_pct period1_val period2_val = (period2_val - period1_val) / period1_val * 100) ∧
    (period1_val ≤ 0 → change_pct period1_val period2_val = 0) := by
  constructor
  · intro h
    simp [change_pct, h]
  · intro h
    simp [change_pct, not_lt.mpr h]

/-- Witness for `change_pct_spec`: a positive baseline takes the formula arm. -/
theorem change_pct_spec_witness : change_pct 2 3 = ((3 : Rat) - 2) / 2 * 100 :=
  (change_pct_spec 2 3).1 (by norm_num)

/-- C9. When the single-pass extraction fails — the completion call raises,
the cleaned response stays unparseable even after repair, or any other
exception strikes the post-parse stage — the pipeline returns
`_create_default_structure`: placeholder title, subtitle and date with an
empty metrics list, never an exception. -/
theorem generate_financial_slides_failure_default :
    (∀ today, generate_financial_slides (.error ()) today = create_default_structure today) ∧
    (∀ response today e,
      parse_with_repair (clean_response response) = .error e →
      generate_financial_slides (.ok response) today = create_default_structure today) ∧
    (∀ response today j e2,
      parse_with_repair (clean_response response) = .ok j →
      sort_all_metrics j = .error e2 →
      generate_financial_slides (.ok response) today = create_default_structure today) ∧
    (∀ today, create_default_structure today =
      .obj [("title", .str "Financial Analysis Report"),
            ("subtitle", .str "Comprehensive Financial Overview"),
            ("date", .str today),
            ("metrics", .arr []),
            ("comparisons", .null)]) := by
  refine ⟨fun today => rfl, ?_, ?_, fun today => rfl⟩
  · intro response today e h
    simp [generate_financial_slides, h]
  · intro response today j e2 h h2
    simp [generate_financial_slides, h, h2]

/-- Witness for `generate_financial_slides_failure_default`: a response with
no JSON at all falls back to the default structure. -/
theorem generate_financial_slides_failure_default_witness :
    generate_financial_slides (.ok "no json here") "September 2025" =
      create_default_structure "September 2025" :=
  generate_financial_slides_failure_default.2.1 "no json here" "September 2025"
    "Expecting value" (by rfl)

/-- C10. The preprocessor never raises: its result is the completion response
on success and the original raw text unchanged when the completion call
raised. -/
theorem preprocess_with_deepseek_spec :
    (∀ raw : String, preprocess_with_deepseek raw (.error ()) = raw) ∧
    (∀ (raw response : String), preprocess_with_deepseek raw (.ok response) = response) :=
  ⟨fun _ => rfl, fun _ _ => rfl⟩

/-- C5 counterexample. The claim's example repairs do not survive the full
three-heuristic chain: the quote-escaping heuristic (c) escapes every quote
that precedes a later `,`, `\x7d` or `]`, so the chain sends
`\x7b"a":1,\x7d` to `\x7b\"a\":1\x7d` (not to the claimed `\x7b"a":1\x7d`)
and `\x7b"a":1\x7d\x7b"b":2\x7d` to `\x7b\"a\":1\x7d,\x7b\"b\":2\x7d` —
and the first repaired text does not even parse. -/
theorem repair_json_counterexample :
    String.mk (repair_json ("\x7b\"a\":1,\x7d".data)) = "\x7b\\\"a\\\":1\x7d" ∧
    String.mk (repair_json ("\x7b\"a\":1,\x7d".data)) ≠ "\x7b\"a\":1\x7d" ∧
    String.mk (repair_json ("\x7b\"a\":1\x7d\x7b\"b\":2\x7d".data)) =
      "\x7b\\\"a\\\":1\x7d,\x7b\\\"b\\\":2\x7d" ∧
    json_loads "\x7b\\\"a\\\":1\x7d" =
      .error "Expecting property name enclosed in double quotes" := by
  exact ⟨by rfl, by decide, by rfl, by rfl⟩

/-- C5 (amended). The parse stage applies the three repair heuristics in
sequence — trailing-comma removal, adjacent-object comma insertion,
quote escaping — each to the previous result, re-attempts the parse only
after all three, and on a second failure signals the ORIGINAL parser error
(never substituting data). Individually, heuristic (a) maps `\x7b"a":1,\x7d`
to `\x7b"a":1\x7d` and heuristic (b) maps `\x7b"a":1\x7d\x7b"b":2\x7d` to
`\x7b"a":1\x7d,\x7b"b":2\x7d`; the composed chain afterwards escapes every
quote that precedes a later `,`, `\x7d` or `]`. -/
theorem parse_with_repair_spec :
    (∀ s first_error, json_loads s = .error first_error →
      (∀ e2, json_loads (String.mk (repair_json s.data)) = .error e2 →
        parse_with_repair s = .error first_error) ∧
      (∀ j, json_loads (String.mk (repair_json s.data)) = .ok j →
        parse_with_repair s = .ok j)) ∧
    (∀ cs, repair_json cs = fix_unescaped_quotes (fix_missing_commas (fix_trailing_commas cs))) ∧
    String.mk (fix_trailing_commas ("\x7b\"a\":1,\x7d".data)) = "\x7b\"a\":1\x7d" ∧
    String.mk (fix_missing_commas ("\x7b\"a\":1\x7d\x7b\"b\":2\x7d".data)) =
      "\x7b\"a\":1\x7d,\x7b\"b\":2\x7d" := by
  refine ⟨?_, fun cs => rfl, by rfl, by rfl⟩
  intro s first_error h
  constructor
  · intro e2 h2
    simp [parse_with_repair, h, h2]
  · intro j h2
    simp [parse_with_repair, h, h2]

/-- Witness for `parse_with_repair_spec`: on `\x7b"a":1,\x7d` the strict parse
fails, the repaired text `\x7b\"a\":1\x7d` fails again, and the stage reports
the original error. -/
theorem parse_with_repair_spec_witness :
    parse_with_repair "\x7b\"a\":1,\x7d" =
      .error "Expecting property name enclosed in double quotes" :=
  ((parse_with_repair_spec.1 "\x7b\"a\":1,\x7d"
      "Expecting property name enclosed in double quotes" (by rfl)).1
    "Expecting property name enclosed in double quotes" (by rfl))

/-- C6 counterexample. The category-partitioned per-call parser does NOT
provide the single-pass path's sanitization: on the response `\x7b,\x7d` the
single-pass stage repairs (heuristic (a) deletes the comma) and parses the
empty object, while `_parse_json_response` never attempts a repair and falls
back to `\x7b"metrics": []\x7d`. -/
theorem parse_json_response_counterexample :
    parse_json_response "\x7b,\x7d" = .ok (.obj [("metrics", .arr [])]) ∧
    parse_with_repair (clean_response "\x7b,\x7d") = .ok (.obj []) ∧
    Json.obj [("metrics", Json.arr [])] ≠ Json.obj [] := by
  refine ⟨by rfl, by rfl, by simp⟩

/-- C6 (amended). Both modes run the identical cleaning (fence stripping and
outermost-brace slicing, the shared `clean_response`) and then a strict
parse; but only the single-pass path applies the three repair heuristics on
failure — the per-call parser of the category-partitioned mode returns
`\x7b"metrics": []\x7d` at once when the strict parse fails. A successfully
parsed dict whose `metrics` value is a list (or absent) is passed through
unchanged, while a dict with an unsized `metrics` value (such as `null`)
makes the helper's debug print raise `TypeError` out of the helper. -/
theorem parse_json_response_spec :
    (∀ s e, json_loads (clean_response s) = .error e →
      parse_json_response s = .ok (.obj [("metrics", .arr [])])) ∧
    (∀ s kvs xs, json_loads (clean_response s) = .ok (.obj kvs) →
      dictGet kvs "metrics" = some (.arr xs) →
      parse_json_response s = .ok (.obj kvs)) ∧
    (∀ s kvs, json_loads (clean_response s) = .ok (.obj kvs) →
      dictGet kvs "metrics" = none →
      parse_json_response s = .ok (.obj kvs)) ∧
    (∀ s kvs, json_loads (clean_response s) = .ok (.obj kvs) →
      dictGet kvs "metrics" = some .null →
      parse_json_response s = .error ()) := by
  refine ⟨?_, ?_, ?_, ?_⟩
  · intro s e h
    simp [parse_json_response, h]
  · intro s kvs xs h hm
    simp [parse_json_response, h, hm]
  · intro s kvs h hm
    simp [parse_json_response, h, hm]
  · intro s kvs h hm
    simp [parse_json_response, h, hm]

/-- Witness for `parse_json_response_spec`: a braceless response fails the
strict parse and yields the empty-metrics fallback. -/
theorem parse_json_response_spec_witness :
    parse_json_response "unusable model output" = .ok (.obj [("metrics", .arr [])]) :=
  parse_json_response_spec.1 "unusable model output" "Expecting value" (by rfl)

/-- C4 counterexample. Two metrics with the IDENTICAL chronologically sorted
series (whose actual sequential change is `(5200 - 9384) / 9384 * 100 ≈
-44.6`) but different model-supplied `kpis.vs_previous.pct` values produce
different emitted KPI percents, each the verbatim supplied value — so the
slide's KPI set is a function of the model-supplied KPI object, not of the
series, contradicting the claim that KPI values are computed locally and
never taken verbatim from the LLM response. -/
theorem kpi_prev_percent_counterexample :
    kpi_prev_percent (sampleMetric (.num 50 0)) = .ok (some ("+", .num 50 0)) ∧
    kpi_prev_percent (sampleMetric (.num (-446) (-1))) = .ok (some ("", .num (-446) (-1))) ∧
    kpi_prev_percent (sampleMetric (.num 50 0)) ≠
      kpi_prev_percent (sampleMetric (.num (-446) (-1))) := by
  refine ⟨by rfl, by rfl, ?_⟩
  intro h
  rw [show kpi_prev_percent (sampleMetric (.num 50 0)) = .ok (some ("+", .num 50 0)) from rfl,
    show kpi_prev_percent (sampleMetric (.num (-446) (-1))) =
      .ok (some ("", .num (-446) (-1))) from rfl] at h
  simp at h

/-- C4 (amended). The emitted KPI percent of a statistic slide is determined
by the metric's model-supplied `kpis` object alone (metrics agreeing on
`kpis` get identical KPI strings whatever their series), and when the
supplied `kpis.vs_previous.pct` is a number it is emitted verbatim with only
a sign prefix — the KPI is not recomputed from the chronologically sorted
series. -/
theorem kpi_prev_percent_spec :
    (∀ kvs1 kvs2 : List (String × Json), dictGet kvs1 "kpis" = dictGet kvs2 "kpis" →
      kpi_prev_percent (.obj kvs1) = kpi_prev_percent (.obj kvs2)) ∧
    (∀ (kvs : List (String × Json)) (kkvs vkvs : List (String × Json)) (m e : Int),
      dictGet kvs "kpis" = some (.obj kkvs) → kkvs ≠ [] →
      dictGet kkvs "vs_previous" = some (.obj vkvs) → vkvs ≠ [] →
      dictGet vkvs "pct" = some (.num m e) →
      kpi_prev_percent (.obj kvs) = .ok (some ((if 0 ≤ m then "+" else ""), .num m e))) := by
  constructor
  · intro kvs1 kvs2 h
    simp [kpi_prev_percent, vs_previous_of, h]
  · intro kvs kkvs vkvs m e hk hkne hv hvne hp
    simp [kpi_prev_percent, vs_previous_of, pyOrDefault, pyOrNone, pyTruthy,
      hk, hkne, hv, hvne, hp]

/-- Witness for `kpi_prev_percent_spec`: the sample metric with a supplied
`pct` of `-44.6` emits exactly that value, with an empty sign prefix. -/
theorem kpi_prev_percent_spec_witness :
    kpi_prev_percent (sampleMetric (.num (-446) (-1))) =
      .ok (some ("", .num (-446) (-1))) := by
  have h := kpi_prev_percent_spec.2
    [("name", .str "Income"),
     ("value", .str "$5,200"),
     ("label", .str "Latest Income (Sep 2024)"),
     ("kpis", .obj [("vs_previous", .obj [("pct", .num (-446) (-1)), ("from", .num 9384 0), ("to", .num 5200 0)]),
                    ("previous_label", .str "Aug 2024"),
                    ("latest_label", .str "Sep 2024")]),
     ("chart_data", .arr [.obj [("name", .str "Aug 2024"), ("series1", .num 9384 0)],
                          .obj [("name", .str "Sep 2024"), ("series1", .num 5200 0)]])]
    [("vs_previous", .obj [("pct", .num (-446) (-1)), ("from", .num 9384 0), ("to", .num 5200 0)]),
     ("previous_label", .str "Aug 2024"), ("latest_label", .str "Sep 2024")]
    [("pct", .num (-446) (-1)), ("from", .num 9384 0), ("to", .num 5200 0)]
    (-446) (-1) (by rfl) (by simp) (by rfl) (by simp) (by rfl)
  simpa using h

/-- The key comparison is transitive. -/
theorem chartKeyLe_trans (a b c : Json) (hab : chartKeyLe a b = true)
    (hbc : chartKeyLe b c = true) : chartKeyLe a c = true := by
  simp [chartKeyLe] at *
  omega

/-- The key comparison is total. -/
theorem chartKeyLe_total (a b : Json) : (chartKeyLe a b || chartKeyLe b a) = true := by
  simp [chartKeyLe]
  omega

/-- Stability of the chronological sort, for every input: the entries holding
any fixed key value keep their original relative order (so the original list
restricted to one key value is recovered verbatim from the sorted list). -/
theorem sort_chart_data_filter_key (l : List Json) (k : Nat) :
    (sort_chart_data_chronologically l).filter (fun x => chart_entry_key x == k) =
      l.filter (fun x => chart_entry_key x == k) := by
  unfold sort_chart_data_chronologically
  by_cases hE : l.isEmpty = true
  · simp [hE]
  · by_cases hA : l.all (fun x => x.isObj) = true
    · simp only [hE, hA, if_false, if_true]
      set p : Json → Bool := fun x => chart_entry_key x == k with hp
      have hpair : (l.filter p).Pairwise (fun a b => chartKeyLe a b = true) := by
        apply List.pairwise_of_forall_mem_list
        intro a ha b hb
        have hka := (List.mem_filter.mp ha).2
        have hkb := (List.mem_filter.mp hb).2
        simp [hp] at hka hkb
        simp [chartKeyLe, hka, hkb]
      have hsubm : (l.filter p).Sublist (l.mergeSort chartKeyLe) :=
        List.sublist_mergeSort chartKeyLe_trans chartKeyLe_total hpair (List.filter_sublist l)
      have hfix : (l.filter p).filter p = l.filter p :=
        List.filter_eq_self.mpr (fun a ha => (List.mem_filter.mp ha).2)
      have hsub2 : (l.filter p).Sublist ((l.mergeSort chartKeyLe).filter p) := by
        have := List.Sublist.filter p hsubm
        rwa [hfix] at this
      have hperm : ((l.mergeSort chartKeyLe).filter p).Perm (l.filter p) :=
        List.Perm.filter p (List.mergeSort_perm l chartKeyLe)
      exact (hsub2.eq_of_length hperm.length_eq.symm).symm
    · simp [hE, hA]

/-- C7. The series sort is a stable sort by the label's key: the output is a
permutation of the input, on all-dict input it is sorted ascending by the
label's key, for every input and every key value the entries with that key
appear in the sorted output in their original relative order, and the sort is
a no-op on every already chronologically sorted series (hence idempotent). -/
theorem sort_chart_data_stable_and_idempotent :
    (∀ l : List Json, (sort_chart_data_chronologically l).Perm l) ∧
    (∀ l : List Json, l.all (fun x => x.isObj) = true →
      (sort_chart_data_chronologically l).Pairwise
        (fun a b => chart_entry_key a ≤ chart_entry_key b)) ∧
    (∀ (l : List Json) (k : Nat),
      (sort_chart_data_chronologically l).filter (fun x => chart_entry_key x == k) =
        l.filter (fun x => chart_entry_key x == k)) ∧
    (∀ l : List Json,
      l.Pairwise (fun a b => chart_entry_key a ≤ chart_entry_key b) →
      sort_chart_data_chronologically l = l) := by
  refine ⟨?_, ?_, sort_chart_data_filter_key, ?_⟩
  · intro l
    unfold sort_chart_data_chronologically
    by_cases hE : l.isEmpty = true
    · simp [hE]
    · by_cases hA : l.all (fun x => x.isObj) = true
      · simp only [hE, hA, if_false, if_true]
        exact List.mergeSort_perm l chartKeyLe
      · simp [hE, hA]
  · intro l hA
    unfold sort_chart_data_chronologically
    by_cases hE : l.isEmpty = true
    · have : l = [] := List.isEmpty_iff.mp hE
      simp [this]
    · simp only [hE, hA, if_false, if_true]
      exact (List.sorted_mergeSort chartKeyLe_trans chartKeyLe_total l).imp
        (by intro a b h; simpa [chartKeyLe] using h)
  · intro l hpair
    unfold sort_chart_data_chronologically
    by_cases hE : l.isEmpty = true
    · simp [hE]
    · by_cases hA : l.all (fun x => x.isObj) = true
      · simp only [hE, hA, if_false, if_true]
        exact List.mergeSort_of_sorted (hpair.imp (by intro a b h; simpa [chartKeyLe] using h))
      · simp [hE, hA]

/-- Witness for `sort_chart_data_stable_and_idempotent`: sorting the already
sorted two-point January/February series changes nothing. -/
theorem sort_chart_data_stable_and_idempotent_witness :
    sort_chart_data_chronologically
      [Json.obj [("name", .str "Jan 2021"), ("series1", .num 84629 0)],
       Json.obj [("name", .str "Feb 2021"), ("series1", .num 88912 0)]] =
      [Json.obj [("name", .str "Jan 2021"), ("series1", .num 84629 0)],
       Json.obj [("name", .str "Feb 2021"), ("series1", .num 88912 0)]] :=
  sort_chart_data_stable_and_idempotent.2.2.2
    [Json.obj [("name", .str "Jan 2021"), ("series1", .num 84629 0)],
     Json.obj [("name", .str "Feb 2021"), ("series1", .num 88912 0)]]
    (by simp [List.pairwise_cons]; decide)

/-- A four-digit `%Y` year is at most 9999. -/
theorem matchFourDigits_le {cs rest : List Char} {y : Nat}
    (h : matchFourDigits cs = some (y, rest)) : y ≤ 9999 := by
  rcases cs with _ | ⟨a, _ | ⟨b, _ | ⟨c, _ | ⟨d, tail⟩⟩⟩⟩ <;> simp [matchFourDigits] at h
  rcases h with ⟨⟨ha, hb, hc, hd⟩, hy, -⟩
  simp [isDigitCh] at ha hb hc hd
  simp [digitsVal, digitVal, List.foldl] at hy
  omega

/-- Every month number in the two name tables is between 1 and 12. -/
theorem monthTables_le12 :
    (∀ p ∈ monthAbbrevs, 1 ≤ p.2 ∧ p.2 ≤ 12) ∧ (∀ p ∈ monthFulls, 1 ≤ p.2 ∧ p.2 ≤ 12) := by
  constructor <;> decide

/-- A matched month name carries a number of its table. -/
theorem matchMonthName_mem {tbl : List (List Char × Nat)} {cs : List Char} {m : Nat}
    {rest : List Char} (h : matchMonthName tbl cs = some (m, rest)) :
    ∃ name, (name, m) ∈ tbl := by
  induction tbl with
  | nil => simp [matchMonthName] at h
  | cons p tbl ih =>
    obtain ⟨name, mn⟩ := p
    by_cases hpre : name.isPrefixOf cs = true
    · simp [matchMonthName, hpre] at h
      exact ⟨name, by simp [h.1.symm]⟩
    · simp [matchMonthName, hpre] at h
      obtain ⟨nm, hnm⟩ := ih h
      exact ⟨nm, List.mem_cons_of_mem _ hnm⟩

/-- Bounds of `"%b %Y"`/`"%B %Y"` parses over either month table. -/
theorem parseMonthNameYear_bounds {tbl : List (List Char × Nat)}
    (htbl : ∀ p ∈ tbl, 1 ≤ p.2 ∧ p.2 ≤ 12) {cs : List Char} {y m : Nat}
    (h : parseMonthNameYear tbl cs = some (y, m)) : y ≤ 9999 ∧ m ≤ 12 := by
  unfold parseMonthNameYear at h
  cases hn : matchMonthName tbl cs with
  | none => simp only [hn] at h; simp at h
  | some pm =>
    obtain ⟨m1, rest⟩ := pm
    simp only [hn] at h
    cases hw : matchWsRun rest with
    | none => simp only [hw] at h; simp at h
    | some rest2 =>
      simp only [hw] at h
      cases hf : matchFourDigits rest2 with
      | none => simp only [hf] at h; simp at h
      | some pr =>
        obtain ⟨y1, rem⟩ := pr
        simp only [hf] at h
        cases rem with
        | nil =>
          by_cases hy0 : y1 = 0
          · simp [hy0] at h
          · simp [hy0] at h
            obtain ⟨hy, hm⟩ := h
            obtain ⟨name, hmem⟩ := matchMonthName_mem hn
            exact ⟨hy ▸ matchFourDigits_le hf, hm ▸ (htbl _ hmem).2⟩
        | cons r rs => simp at h

/-- Bounds of the two-digit `%m` alternatives. -/
theorem matchMonthTwoDigits_le12 {cs rest : List Char} {m : Nat}
    (h : matchMonthTwoDigits cs = some (m, rest)) : m ≤ 12 := by
  rcases cs with _ | ⟨a, _ | ⟨b, tail⟩⟩ <;> simp [matchMonthTwoDigits] at h
  by_cases h1 : a = '1' ∧ 48 ≤ b.toNat ∧ b.toNat ≤ 50
  · simp [h1] at h
    omega
  · simp [h1] at h
    by_cases h2 : a = '0' ∧ 49 ≤ b.toNat ∧ b.toNat ≤ 57
    · simp [h2] at h
      omega
    · simp [h2] at h

/-- Bound of the one-digit `%m` alternative. -/
theorem matchMonthOneDigit_le12 {cs rest : List Char} {m : Nat}
    (h : matchMonthOneDigit cs = some (m, rest)) : m ≤ 12 := by
  rcases cs with _ | ⟨a, tail⟩ <;> simp [matchMonthOneDigit] at h
  by_cases h1 : 49 ≤ a.toNat ∧ a.toNat ≤ 57
  · simp [h1] at h
    omega
  · simp [h1] at h

/-- Bound of the year after the slash of `"%m/%Y"`. -/
theorem slashYearEnd_le {cs : List Char} {y : Nat} (h : slashYearEnd cs = some y) :
    y ≤ 9999 := by
  rcases cs with _ | ⟨c, rest⟩ <;> simp [slashYearEnd] at h
  by_cases hc : c = '/'
  · simp [hc] at h
    cases hf : matchFourDigits rest with
    | none => simp only [hf] at h; simp at h
    | some pr =>
      obtain ⟨y1, rem⟩ := pr
      simp only [hf] at h
      cases rem with
      | nil =>
        by_cases hy0 : y1 = 0
        · simp [hy0] at h
        · simp [hy0] at h
          exact h ▸ matchFourDigits_le hf
      | cons r rs => simp at h
  · simp [hc] at h

/-- Bounds of `"%m/%Y"` parses. -/
theorem parseMonthSlashYear_bounds {cs : List Char} {y m : Nat}
    (h : parseMonthSlashYear cs = some (y, m)) : y ≤ 9999 ∧ m ≤ 12 := by
  unfold parseMonthSlashYear at h
  cases h2 : matchMonthTwoDigits cs with
  | some pm =>
    obtain ⟨m2, rest2⟩ := pm
    simp only [h2] at h
    cases hs : slashYearEnd rest2 with
    | some y2 =>
      simp only [hs] at h
      simp at h
      exact ⟨h.1 ▸ slashYearEnd_le hs, h.2 ▸ matchMonthTwoDigits_le12 h2⟩
    | none =>
      simp only [hs] at h
      cases h1 : matchMonthOneDigit cs with
      | some pm1 =>
        obtain ⟨m1, rest1⟩ := pm1
        simp only [h1] at h
        cases hs1 : slashYearEnd rest1 with
        | some y1 =>
          simp only [hs1] at h
          simp at h
          exact ⟨h.1 ▸ slashYearEnd_le hs1, h.2 ▸ matchMonthOneDigit_le12 h1⟩
        | none => simp only [hs1] at h; simp at h
      | none => simp only [h1] at h; simp at h
  | none =>
    simp only [h2] at h
    cases h1 : matchMonthOneDigit cs with
    | some pm1 =>
      obtain ⟨m1, rest1⟩ := pm1
      simp only [h1] at h
      cases hs1 : slashYearEnd rest1 with
      | some y1 =>
        simp only [hs1] at h
        simp at h
        exact ⟨h.1 ▸ slashYearEnd_le hs1, h.2 ▸ matchMonthOneDigit_le12 h1⟩
      | none => simp only [hs1] at h; simp at h
    | none => simp only [h1] at h; simp at h

/-- Bounds of `"%Y-%m"` parses. -/
theorem parseYearDashMonth_bounds {cs : List Char} {y m : Nat}
    (h : parseYearDashMonth cs = some (y, m)) : y ≤ 9999 ∧ m ≤ 12 := by
  unfold parseYearDashMonth at h
  cases hf : matchFourDigits cs with
  | none => simp only [hf] at h; simp at h
  | some pr =>
    obtain ⟨y1, rem⟩ := pr
    simp only [hf] at h
    cases rem with
    | nil => simp at h
    | cons r rs =>
      by_cases hr : r = '-'
      · subst hr
        by_cases hy0 : y1 = 0
        · simp [hy0] at h
        · simp [hy0] at h
          cases h2 : matchMonthTwoDigits rs with
          | some pm =>
            obtain ⟨m2, rest2⟩ := pm
            simp only [h2] at h
            cases rest2 with
            | nil =>
              simp at h
              exact ⟨h.1 ▸ matchFourDigits_le hf, h.2 ▸ matchMonthTwoDigits_le12 h2⟩
            | cons a as =>
              simp at h
              cases h1 : matchMonthOneDigit rs with
              | some pm1 =>
                obtain ⟨m1, rest1⟩ := pm1
                simp only [h1] at h
                cases rest1 with
                | nil =>
                  simp at h
                  exact ⟨h.1 ▸ matchFourDigits_le hf, h.2 ▸ matchMonthOneDigit_le12 h1⟩
                | cons b bs => simp at h
              | none => simp only [h1] at h; simp at h
          | none =>
            simp only [h2] at h
            cases h1 : matchMonthOneDigit rs with
            | some pm1 =>
              obtain ⟨m1, rest1⟩ := pm1
              simp only [h1] at h
              cases rest1 with
              | nil =>
                simp at h
                exact ⟨h.1 ▸ matchFourDigits_le hf, h.2 ▸ matchMonthOneDigit_le12 h1⟩
              | cons b bs => simp at h
            | none => simp only [h1] at h; simp at h
      · rcases r with ⟨rv, hv⟩
        simp [hr] at h

/-- Every date key is at most the sentinel: a parsed label's key is at most
`dateKey 9999 12 1 < sentinelKey`, and unparseable labels get the sentinel. -/
theorem parse_date_key_le (s : String) : parse_date_key s ≤ sentinelKey := by
  unfold parse_date_key
  cases h1 : parseMonthNameYear monthAbbrevs (s.data.map pyLowerChar) with
  | some ym =>
    obtain ⟨y, m⟩ := ym
    obtain ⟨hy, hm⟩ := parseMonthNameYear_bounds monthTables_le12.1 h1
    simp only [h1, dateKey, sentinelKey]
    omega
  | none =>
    cases h2 : parseMonthNameYear monthFulls (s.data.map pyLowerChar) with
    | some ym =>
      obtain ⟨y, m⟩ := ym
      obtain ⟨hy, hm⟩ := parseMonthNameYear_bounds monthTables_le12.2 h2
      simp only [h1, h2, dateKey, sentinelKey]
      omega
    | none =>
      cases h3 : parseMonthSlashYear (s.data.map pyLowerChar) with
      | some ym =>
        obtain ⟨y, m⟩ := ym
        obtain ⟨hy, hm⟩ := parseMonthSlashYear_bounds h3
        simp only [h1, h2, h3, dateKey, sentinelKey]
        omega
      | none =>
        cases h4 : parseYearDashMonth (s.data.map pyLowerChar) with
        | some ym =>
          obtain ⟨y, m⟩ := ym
          obtain ⟨hy, hm⟩ := parseYearDashMonth_bounds h4
          simp only [h1, h2, h3, h4, dateKey, sentinelKey]
          omega
        | none => simp [h1, h2, h3, h4, sentinelKey]

/-- A stable sort by the date key puts the entry with a strictly maximal key
last. -/
theorem mergeSort_max_getLast (l1 l2 : List Json) (x : Json)
    (hlt : ∀ y ∈ l1 ++ l2, chart_entry_key y < chart_entry_key x) :
    ((l1 ++ x :: l2).mergeSort chartKeyLe).getLast? = some x := by
  have hperm : ((l1 ++ x :: l2).mergeSort chartKeyLe).Perm (l1 ++ x :: l2) :=
    List.mergeSort_perm _ _
  have hsorted : ((l1 ++ x :: l2).mergeSort chartKeyLe).Pairwise
      (fun a b => chartKeyLe a b = true) :=
    List.sorted_mergeSort chartKeyLe_trans chartKeyLe_total _
  have hx : x ∈ (l1 ++ x :: l2).mergeSort chartKeyLe :=
    hperm.mem_iff.mpr (by simp)
  rcases List.eq_nil_or_concat ((l1 ++ x :: l2).mergeSort chartKeyLe) with hnil | ⟨s', z, hsz⟩
  · rw [hnil] at hx; simp at hx
  · rw [List.concat_eq_append] at hsz
    have hzx : z = x := by
      by_contra hne
      have hz : z ∈ l1 ++ x :: l2 := hperm.subset (hsz ▸ (by simp))
      have hz' : z ∈ l1 ++ l2 := by
        rcases List.mem_append.mp hz with hh | hh
        · exact List.mem_append_left _ hh
        · rcases List.mem_cons.mp hh with hh' | hh'
          · exact absurd hh' hne
          · exact List.mem_append_right _ hh'
      have hltz : chart_entry_key z < chart_entry_key x := hlt z hz'
      have hx' : x ∈ s' := by
        rw [hsz] at hx
        rcases List.mem_append.mp hx with hh | hh
        · exact hh
        · simp at hh
          exact absurd hh.symm hne
      have hle : chartKeyLe x z = true := by
        rw [hsz] at hsorted
        exact (List.pairwise_append.mp hsorted).2.2 x hx' z (by simp)
      simp [chartKeyLe] at hle
      omega
    rw [hsz, hzx, List.getLast?_concat]

/-- C8. The date normalizer: each of the four formats parses its example to
the same January 2021 key (and the parse tries them in source order, first
match winning), the unparseable label `"Q-unknown"` gets the sentinel
far-future key, every key is at most the sentinel, and in any all-dict series
whose other entries parse strictly below the sentinel, the single
sentinel-keyed entry sorts last regardless of its position. -/
theorem parse_date_formats_and_unparseable_last :
    parse_date_key "Jan 2021" = 20210101 ∧
    parse_date_key "January 2021" = 20210101 ∧
    parse_date_key "01/2021" = 20210101 ∧
    parse_date_key "2021-01" = 20210101 ∧
    parse_date_key "Q-unknown" = sentinelKey ∧
    (∀ (s : String) (y m : Nat),
      parseMonthNameYear monthAbbrevs (s.data.map pyLowerChar) = some (y, m) →
      parse_date_key s = dateKey y m 1) ∧
    (∀ s : String, parse_date_key s ≤ sentinelKey) ∧
    (∀ (l1 l2 : List Json) (x : Json),
      ((l1 ++ x :: l2).all (fun j => j.isObj)) = true →
      (∀ y ∈ l1 ++ l2, chart_entry_key y < sentinelKey) →
      chart_entry_key x = sentinelKey →
      (sort_chart_data_chronologically (l1 ++ x :: l2)).getLast? = some x) := by
  refine ⟨by rfl, by rfl, by rfl, by rfl, by rfl, ?_, parse_date_key_le, ?_⟩
  · intro s y m h
    unfold parse_date_key
    simp only [h]
  intro l1 l2 x hobj hlt hx
  unfold sort_chart_data_chronologically
  have hne : (l1 ++ x :: l2).isEmpty = false := by
    cases l1 <;> simp
  rw [hne]
  simp only [Bool.false_eq_true, if_false, hobj, if_true]
  exact mergeSort_max_getLast l1 l2 x (fun y hy => hx ▸ hlt y hy)

/-- Witness for `parse_date_formats_and_unparseable_last`: a series whose
middle entry has the unparseable label `"Q-unknown"` sorts that entry last. -/
theorem parse_date_formats_and_unparseable_last_witness :
    (sort_chart_data_chronologically
      [Json.obj [("name", .str "Feb 2021"), ("series1", .num 2 0)],
       Json.obj [("name", .str "Q-unknown"), ("series1", .num 9 0)],
       Json.obj [("name", .str "Jan 2021"), ("series1", .num 1 0)]]).getLast? =
      some (Json.obj [("name", .str "Q-unknown"), ("series1", .num 9 0)]) :=
  parse_date_formats_and_unparseable_last.2.2.2.2.2.2.2
    [Json.obj [("name", .str "Feb 2021"), ("series1", .num 2 0)]]
    [Json.obj [("name", .str "Jan 2021"), ("series1", .num 1 0)]]
    (Json.obj [("name", .str "Q-unknown"), ("series1", .num 9 0)])
    (by rfl)
    (by intro y hy; simp at hy; rcases hy with h | h <;> subst h <;> decide)
    (by rfl)

end DashReporting
